import Mathlib

/-!
Shallow embedding of the `ScrollDeck` panel-deck controller
(`src/components/ScrollDeck.jsx`, latest revision) and of the messaging
dispatch shim (`src/services/messaging/index.js`) of the portfolio
repository, together with proofs of the specification claims about them.

Modelling conventions:
* The deck runs in production mode (`IS_TEST = false`): the wheel and touch
  handlers are only attached in production, and all claims are about the
  production behaviour.
* DOM panel elements are modelled by an `Option Panel` per slot
  (`panelRefs.current[idx]` may be `null`).  Only the fields the component
  reads or writes are modelled: scroll geometry, visibility,
  pointer-events, z-index, `aria-hidden` and `inert`.  Purely animated
  visual styles (opacity / transform / filter) and keyboard-focus motion
  are not modelled; no claim mentions them.
* The GSAP timeline's `onComplete` callback is modelled by a
  `pendingComplete` field holding the two panel indices plus an explicit
  `completeTransition` step that applies the callback's effects.
* Side effects visible outside the component (the `deck:state` custom
  event, the `setActive` callback, the `onPendingHandled` callback) are
  collected in an event list.
-/

/-- One section entry of `SECTION_ORDER`. -/
structure Section where
  id : String
  name : String
deriving Repr, DecidableEq

/-- `SECTION_ORDER` from `ScrollDeck.jsx`. -/
def SECTION_ORDER : List Section :=
  [⟨"home", "Home"⟩, ⟨"about", "About"⟩, ⟨"projects", "Projects"⟩,
   ⟨"certifications", "Certs"⟩, ⟨"services", "Services"⟩]

/-- `clamp(n, min, max) = Math.max(min, Math.min(max, n))`. -/
def clamp (n lo hi : Int) : Int :=
  max lo (min hi n)

/-- The modelled state of one mounted panel DOM element. -/
structure Panel where
  scrollTop : Int
  scrollHeight : Int
  clientHeight : Int
  visible : Bool
  pointerEvents : Bool
  zIndex : Nat
  ariaHidden : Bool
  inert : Bool
deriving Repr, DecidableEq

/-- Options object of `goToIndex` (`resetTargetScroll`,
`targetScrollBehavior`, `targetScrollPosition`) with the JS defaults. -/
structure NavOpts where
  resetTargetScroll : Bool := false
  targetScrollBehavior : String := "auto"
  targetScrollPosition : String := "top"
deriving Repr, DecidableEq

/-- A recorded call to `goToIndex` (used to state which requests the
gesture router and the pending-navigation bridge issue). -/
structure NavRequest where
  target : Int
  opts : NavOpts
deriving Repr, DecidableEq

/-- Externally observable side effects of the deck. -/
inductive Evt where
  | deckState (index : Int) (id : String) (scrollTop : Int)
  | setActiveName (name : String)
  | pendingHandled
deriving Repr, DecidableEq

/-- The mutable state of one `ScrollDeck` instance: the refs
(`activeIndexRef`, `isTransitioningRef`, `boundaryCooldownUntilRef`,
`touchStartYRef`, `touchTriggeredRef`), the panel elements, the URL hash
mirror, and the modelled in-flight GSAP completion callback. -/
structure DeckState where
  panels : List (Option Panel)
  activeIndex : Int
  isTransitioning : Bool
  boundaryCooldownUntil : Int
  touchStartY : Int
  touchTriggered : Bool
  urlHash : String
  pendingComplete : Option (Int × Int)
deriving Repr, DecidableEq

/-- Environment read by the deck: the `isQuoteOpen` prop and the two
media-query refs. -/
structure Ctx where
  isQuoteOpen : Bool
  prefersReducedMotion : Bool
  isCoarsePointer : Bool
deriving Repr, DecidableEq

/-- Replace the element at position `n` (no-op when out of range). -/
def modifyNth (f : α → α) : Nat → List α → List α
  | _, [] => []
  | 0, a :: as => f a :: as
  | n + 1, a :: as => a :: modifyNth f n as

/-- `panelRefs.current[i]` (a negative index reads as `null`). -/
def getPanel (s : DeckState) (i : Int) : Option Panel :=
  if i < 0 then none else (s.panels.get? i.toNat).join

/-- `SECTION_ORDER[i]` as a JS indexed read. -/
def sectionAt (i : Int) : Option Section :=
  if i < 0 then none else SECTION_ORDER.get? i.toNat

/-- Apply `f` to the panel element at slot `i` when it is mounted
(`const el = panelRefs.current[idx]; if (!el) return;`). -/
def updatePanel (s : DeckState) (i : Int) (f : Panel → Panel) : DeckState :=
  if i < 0 then s
  else { s with panels := modifyNth (Option.map f) i.toNat s.panels }

/-- `setPanelVisibility(idx, isVisible)` in production mode: sets
`style.visibility` and `style.pointerEvents`. -/
def setPanelVisibility (s : DeckState) (i : Int) (v : Bool) : DeckState :=
  updatePanel s i (fun p => { p with visible := v, pointerEvents := v })

/-- `setPanelA11y(idx, isActive)` in production mode: sets `aria-hidden`
and `inert` to the negation of `isActive`. -/
def setPanelA11y (s : DeckState) (i : Int) (isActive : Bool) : DeckState :=
  updatePanel s i (fun p => { p with ariaHidden := !isActive, inert := !isActive })

/-- A direct `el.style.zIndex = z` assignment on slot `i`. -/
def setZ (s : DeckState) (i : Int) (z : Nat) : DeckState :=
  updatePanel s i (fun p => { p with zIndex := z })

/-- The scroll offset `scrollPanelTo` targets: `top = 0`,
`bottom = Math.max(0, el.scrollHeight - el.clientHeight)`; any position
string other than `"bottom"` selects the top. -/
def scrollTargetOffset (p : Panel) (position : String) : Int :=
  if position = "bottom" then max 0 (p.scrollHeight - p.clientHeight) else 0

/-- `scrollPanelTo(idx, position, behavior)`: scroll the panel to its top
(offset 0) or bottom (`max(0, scrollHeight - clientHeight)`); the scroll
behavior has no effect on the final offset. -/
def scrollPanelTo (s : DeckState) (i : Int) (position : String) : DeckState :=
  updatePanel s i (fun p => { p with scrollTop := scrollTargetOffset p position })

/-- `maxIdx = Math.min(SECTION_ORDER.length - 1, panels.length - 1)`. -/
def maxIdxOf (s : DeckState) : Int :=
  min ((SECTION_ORDER.length : Int) - 1) ((s.panels.length : Int) - 1)

/-- `publishDeckState(idx)`: dispatch a `deck:state` custom event with
`{index, id, scrollTop}`, falling back to `"home"` / `0` when the section
or panel is missing. -/
def publishDeckState (s : DeckState) (idx : Int) : Evt :=
  let scrollTop := match getPanel s idx with
    | some p => p.scrollTop
    | none => 0
  let id := match sectionAt idx with
    | some m => m.id
    | none => "home"
  Evt.deckState idx id scrollTop

/-- `applyActive(idx)`: clamp, store the active index (ref and React state
in lockstep), notify the nav bar (`setActive`) and mirror the section id
into the URL fragment (`setHashQuietly` replaces without a history
entry; the equal-hash early return leaves the same final hash). -/
def applyActive (s : DeckState) (idx : Int) : DeckState × List Evt :=
  let safe := clamp idx 0 (maxIdxOf s)
  let s' := { s with activeIndex := safe }
  match sectionAt safe with
  | some meta =>
      ({ s' with urlHash := "#" ++ meta.id }, [Evt.setActiveName meta.name])
  | none => (s', [])

/-- `goToIndex(nextIdx, opts)` — the transition engine, production mode.
Focus motion (`blurIfFocusedInside`, `focusDeckContainer`,
`focusIntoPanel`) and the animated opacity/transform/filter styles are
not modelled; the GSAP timeline's `onComplete` is deferred into
`pendingComplete`. -/
def goToIndex (ctx : Ctx) (s : DeckState) (nextIdx : Int) (opts : NavOpts) :
    DeckState × List Evt :=
  let current := s.activeIndex
  let target := clamp nextIdx 0 (maxIdxOf s)
  if target = current then
    if opts.resetTargetScroll then
      let s1 := scrollPanelTo s current opts.targetScrollPosition
      (s1, [publishDeckState s1 current])
    else (s, [])
  else if s.isTransitioning then (s, [])
  else if ctx.isQuoteOpen then (s, [])
  else
    let s1 := { s with isTransitioning := true }
    match getPanel s1 current, getPanel s1 target with
    | some _, some _ =>
        let s2 := setPanelVisibility s1 target true
        let s3 := setPanelA11y s2 target true
        let s4 := setZ s3 target 30
        let s5 := setZ s4 current 20
        let s6 := if opts.resetTargetScroll
          then scrollPanelTo s5 target opts.targetScrollPosition else s5
        let r := applyActive s6 target
        if ctx.prefersReducedMotion then
          let s8 := setPanelVisibility r.1 current false
          let s9 := setPanelA11y s8 current false
          let s10 := setZ s9 target 20
          let s11 := setZ s10 current 10
          ({ s11 with isTransitioning := false, pendingComplete := none }, r.2)
        else
          ({ r.1 with pendingComplete := some (current, target) }, r.2)
    | _, _ =>
        let r := applyActive { s1 with isTransitioning := false } target
        (r.1, r.2)

/-- The GSAP timeline `onComplete` callback: hide and aria-hide the
outgoing panel, demote the z-order, leave `Transitioning`. -/
def completeTransition (s : DeckState) : DeckState :=
  match s.pendingComplete with
  | none => s
  | some (cur, tgt) =>
      let s1 := setPanelVisibility s cur false
      let s2 := setPanelA11y s1 cur false
      let s3 := setZ s2 tgt 20
      let s4 := setZ s3 cur 10
      { s4 with isTransitioning := false, pendingComplete := none }

/-- The options the gesture router passes for a forward hop and for an
external jump: land at the top of the destination panel. -/
def topEntryOpts : NavOpts :=
  { resetTargetScroll := true, targetScrollBehavior := "auto",
    targetScrollPosition := "top" }

/-- The options the gesture router passes for a backward hop: land at the
bottom of the destination panel. -/
def bottomEntryOpts : NavOpts :=
  { resetTargetScroll := true, targetScrollBehavior := "auto",
    targetScrollPosition := "bottom" }

/-- `atTop = el.scrollTop <= 0`: the active panel is at its top scroll
edge. -/
def atTopEdge (p : Panel) : Bool :=
  p.scrollTop ≤ 0

/-- `atBottom = el.scrollTop + el.clientHeight >= el.scrollHeight - 1`:
the active panel is at its bottom scroll edge. -/
def atBottomEdge (p : Panel) : Bool :=
  p.scrollTop + p.clientHeight ≥ p.scrollHeight - 1

/-- The `onWheel` handler (attached in production on fine pointers only).
`delta` is `e.deltaY`, `now` is `performance.now()`.  Besides the updated
state and the emitted events, the result records the `goToIndex` request
the handler issued, if any. -/
def onWheel (ctx : Ctx) (s : DeckState) (delta now : Int) :
    DeckState × List Evt × Option NavRequest :=
  if ctx.isQuoteOpen then (s, [], none)
  else if now < s.boundaryCooldownUntil then (s, [], none)
  else if s.isTransitioning then (s, [], none)
  else
    match getPanel s s.activeIndex with
    | none => (s, [], none)
    | some el =>
      if delta.natAbs < 2 then (s, [], none)
      else
        let atTop := atTopEdge el
        let atBottom := atBottomEdge el
        let idx := s.activeIndex
        if delta > 0 then
          if ¬ atBottom then (s, [], none)
          else if idx ≥ maxIdxOf s then
            ({ s with boundaryCooldownUntil := now + 80 }, [], none)
          else
            let r := goToIndex ctx s (idx + 1) topEntryOpts
            (r.1, r.2, some ⟨idx + 1, topEntryOpts⟩)
        else
          if ¬ atTop then (s, [], none)
          else if idx ≤ 0 then
            ({ s with boundaryCooldownUntil := now + 80 }, [], none)
          else
            let r := goToIndex ctx s (idx - 1) bottomEntryOpts
            (r.1, r.2, some ⟨idx - 1, bottomEntryOpts⟩)

/-- The `onTouchStart` handler for a single-touch contact at height `y`. -/
def onTouchStart (ctx : Ctx) (s : DeckState) (y : Int) : DeckState :=
  if ctx.isQuoteOpen then s
  else if s.isTransitioning then s
  else { s with touchTriggered := false, touchStartY := y }

/-- The `onTouchMove` handler for a single-touch move to height `y` at
time `now` (`THRESHOLD_PX = 26`, `COOLDOWN_MS = 80`). -/
def onTouchMove (ctx : Ctx) (s : DeckState) (y now : Int) :
    DeckState × List Evt × Option NavRequest :=
  if ctx.isQuoteOpen then (s, [], none)
  else if now < s.boundaryCooldownUntil then (s, [], none)
  else if s.isTransitioning then (s, [], none)
  else if s.touchTriggered then (s, [], none)
  else
    match getPanel s s.activeIndex with
    | none => (s, [], none)
    | some el =>
      let idx := s.activeIndex
      let deltaY := s.touchStartY - y
      if deltaY.natAbs < 26 then (s, [], none)
      else
        let atTop := atTopEdge el
        let atBottom := atBottomEdge el
        if deltaY > 0 ∧ atBottom then
          if idx ≥ maxIdxOf s then
            ({ s with boundaryCooldownUntil := now + 80 }, [], none)
          else
            let s1 := { s with touchTriggered := true,
                               boundaryCooldownUntil := now + 80 }
            let r := goToIndex ctx s1 (idx + 1) topEntryOpts
            (r.1, r.2, some ⟨idx + 1, topEntryOpts⟩)
        else if deltaY < 0 ∧ atTop then
          if idx ≤ 0 then
            ({ s with boundaryCooldownUntil := now + 80 }, [], none)
          else
            let s1 := { s with touchTriggered := true,
                               boundaryCooldownUntil := now + 80 }
            let r := goToIndex ctx s1 (idx - 1) bottomEntryOpts
            (r.1, r.2, some ⟨idx - 1, bottomEntryOpts⟩)
        else (s, [], none)

/-- The `onTouchEnd` / `onTouchCancel` handler: release the
one-navigation-per-gesture latch. -/
def onTouchEnd (s : DeckState) : DeckState :=
  { s with touchTriggered := false }

/-- `getIndexById(id)`: `-1` for a falsy id, else
`SECTION_ORDER.findIndex(s => s.id === id)`. -/
def getIndexById (id : String) : Int :=
  if id = "" then -1
  else match SECTION_ORDER.findIdx? (fun sec => sec.id = id) with
    | some n => (n : Int)
    | none => -1

/-- One run of the pending-navigation effect body for a pending section
id (`pendingSectionId` is falsy exactly when no request is pending):
`goToSection(id, {resetTargetScroll: true, position: "top"})` followed by
`onPendingHandled?.()`.  The issued `goToIndex` request, if any, is
recorded. -/
def pendingNavEffect (ctx : Ctx) (s : DeckState) (id : String) :
    DeckState × List Evt × Option NavRequest :=
  if id = "" then (s, [], none)
  else
    let idx := getIndexById id
    if idx ≥ 0 then
      let g := goToIndex ctx s idx topEntryOpts
      (g.1, g.2 ++ [Evt.pendingHandled], some (⟨idx, topEntryOpts⟩ : NavRequest))
    else (s, [Evt.pendingHandled], none)

/-- One navigation-request step of the deck, as quantified over by the
range invariant: a direct `goToIndex` call with an arbitrary integer
argument, a wheel event, a touch lifecycle event, a GSAP completion, or a
pending-navigation run. -/
inductive DeckStep where
  | nav (n : Int) (opts : NavOpts)
  | wheel (delta now : Int)
  | tstart (y : Int)
  | tmove (y now : Int)
  | tend
  | complete
  | pending (id : String)
deriving Repr, DecidableEq

/-- Apply one step to the deck state. -/
def applyStep (ctx : Ctx) (s : DeckState) : DeckStep → DeckState
  | .nav n opts => (goToIndex ctx s n opts).1
  | .wheel d t => (onWheel ctx s d t).1
  | .tstart y => onTouchStart ctx s y
  | .tmove y t => (onTouchMove ctx s y t).1
  | .tend => onTouchEnd s
  | .complete => completeTransition s
  | .pending id => (pendingNavEffect ctx s id).1

/-- Run a sequence of steps. -/
def runSteps (ctx : Ctx) (s : DeckState) (steps : List DeckStep) : DeckState :=
  steps.foldl (applyStep ctx) s

/-- The deck state at mount, before any navigation: `activeIndex = 0`,
idle, no cooldown, with the given panel slots. -/
def initState (panels : List (Option Panel)) : DeckState :=
  { panels := panels, activeIndex := 0, isTransitioning := false,
    boundaryCooldownUntil := 0, touchStartY := 0, touchTriggered := false,
    urlHash := "", pendingComplete := none }

/-! ### Basic lemmas about the deck operations -/

@[simp]
theorem modifyNth_length (f : α → α) (n : Nat) (l : List α) :
    (modifyNth f n l).length = l.length := by
  induction l generalizing n with
  | nil => cases n <;> rfl
  | cons a as ih => cases n with
    | zero => rfl
    | succ m => simpa [modifyNth] using ih m

@[simp]
theorem updatePanel_panels_length (s : DeckState) (i : Int) (f : Panel → Panel) :
    (updatePanel s i f).panels.length = s.panels.length := by
  unfold updatePanel; split <;> simp

@[simp]
theorem updatePanel_activeIndex (s : DeckState) (i : Int) (f : Panel → Panel) :
    (updatePanel s i f).activeIndex = s.activeIndex := by
  unfold updatePanel; split <;> rfl

@[simp]
theorem updatePanel_isTransitioning (s : DeckState) (i : Int) (f : Panel → Panel) :
    (updatePanel s i f).isTransitioning = s.isTransitioning := by
  unfold updatePanel; split <;> rfl

@[simp]
theorem updatePanel_boundaryCooldownUntil (s : DeckState) (i : Int) (f : Panel → Panel) :
    (updatePanel s i f).boundaryCooldownUntil = s.boundaryCooldownUntil := by
  unfold updatePanel; split <;> rfl

@[simp]
theorem updatePanel_touchTriggered (s : DeckState) (i : Int) (f : Panel → Panel) :
    (updatePanel s i f).touchTriggered = s.touchTriggered := by
  unfold updatePanel; split <;> rfl

@[simp]
theorem updatePanel_touchStartY (s : DeckState) (i : Int) (f : Panel → Panel) :
    (updatePanel s i f).touchStartY = s.touchStartY := by
  unfold updatePanel; split <;> rfl

@[simp]
theorem updatePanel_pendingComplete (s : DeckState) (i : Int) (f : Panel → Panel) :
    (updatePanel s i f).pendingComplete = s.pendingComplete := by
  unfold updatePanel; split <;> rfl

@[simp]
theorem updatePanel_urlHash (s : DeckState) (i : Int) (f : Panel → Panel) :
    (updatePanel s i f).urlHash = s.urlHash := by
  unfold updatePanel; split <;> rfl

@[simp]
theorem maxIdxOf_updatePanel (s : DeckState) (i : Int) (f : Panel → Panel) :
    maxIdxOf (updatePanel s i f) = maxIdxOf s := by
  unfold maxIdxOf; simp

theorem clamp_clamp (n m : Int) : clamp (clamp n 0 m) 0 m = clamp n 0 m := by
  unfold clamp; omega

theorem clamp_nonneg (n lo hi : Int) : lo ≤ clamp n lo hi := by
  unfold clamp; omega

theorem clamp_le (n m : Int) (h : 0 ≤ m) : clamp n 0 m ≤ m := by
  unfold clamp; omega

@[simp]
theorem applyActive_fst_activeIndex (s : DeckState) (i : Int) :
    (applyActive s i).1.activeIndex = clamp i 0 (maxIdxOf s) := by
  unfold applyActive; simp only []; split <;> rfl

@[simp]
theorem applyActive_fst_panels (s : DeckState) (i : Int) :
    (applyActive s i).1.panels = s.panels := by
  unfold applyActive; simp only []; split <;> rfl

@[simp]
theorem applyActive_fst_isTransitioning (s : DeckState) (i : Int) :
    (applyActive s i).1.isTransitioning = s.isTransitioning := by
  unfold applyActive; simp only []; split <;> rfl

@[simp]
theorem applyActive_fst_pendingComplete (s : DeckState) (i : Int) :
    (applyActive s i).1.pendingComplete = s.pendingComplete := by
  unfold applyActive; simp only []; split <;> rfl

@[simp]
theorem applyActive_fst_boundaryCooldownUntil (s : DeckState) (i : Int) :
    (applyActive s i).1.boundaryCooldownUntil = s.boundaryCooldownUntil := by
  unfold applyActive; simp only []; split <;> rfl

@[simp]
theorem applyActive_fst_touchTriggered (s : DeckState) (i : Int) :
    (applyActive s i).1.touchTriggered = s.touchTriggered := by
  unfold applyActive; simp only []; split <;> rfl

theorem maxIdxOf_eq_of_length {s s' : DeckState}
    (h : s'.panels.length = s.panels.length) : maxIdxOf s' = maxIdxOf s := by
  unfold maxIdxOf; rw [h]

theorem goToIndex_fst_panels_length (ctx : Ctx) (s : DeckState) (n : Int) (o : NavOpts) :
    (goToIndex ctx s n o).1.panels.length = s.panels.length := by
  unfold goToIndex
  simp only []
  repeat' split
  all_goals simp [setPanelVisibility, setPanelA11y, setZ, scrollPanelTo]

theorem goToIndex_fst_activeIndex (ctx : Ctx) (s : DeckState) (n : Int) (o : NavOpts) :
    (goToIndex ctx s n o).1.activeIndex = s.activeIndex ∨
    (goToIndex ctx s n o).1.activeIndex = clamp n 0 (maxIdxOf s) := by
  unfold goToIndex
  simp only []
  repeat' split
  all_goals
    first
    | (left; simp [scrollPanelTo]; done)
    | (right
       simp [setPanelVisibility, setPanelA11y, setZ, scrollPanelTo, maxIdxOf, clamp_clamp]
       done)

/-- The range invariant of the deck state. -/
def DeckInv (s : DeckState) : Prop :=
  0 ≤ s.activeIndex ∧ s.activeIndex ≤ maxIdxOf s

theorem goToIndex_inv (ctx : Ctx) (s : DeckState) (n : Int) (o : NavOpts)
    (h : DeckInv s) : DeckInv (goToIndex ctx s n o).1 := by
  have hm := maxIdxOf_eq_of_length (goToIndex_fst_panels_length ctx s n o)
  rcases goToIndex_fst_activeIndex ctx s n o with ha | ha <;>
    unfold DeckInv at h ⊢ <;> rw [ha, hm]
  · exact h
  · exact ⟨clamp_nonneg n 0 (maxIdxOf s), clamp_le n (maxIdxOf s) (le_trans h.1 h.2)⟩

theorem onWheel_inv (ctx : Ctx) (s : DeckState) (d t : Int)
    (h : DeckInv s) : DeckInv (onWheel ctx s d t).1 := by
  unfold onWheel
  simp only []
  repeat' split
  any_goals exact h
  all_goals exact goToIndex_inv ctx s _ _ h

theorem onTouchMove_inv (ctx : Ctx) (s : DeckState) (y t : Int)
    (h : DeckInv s) : DeckInv (onTouchMove ctx s y t).1 := by
  unfold onTouchMove
  simp only []
  repeat' split
  any_goals exact h
  all_goals
    exact goToIndex_inv ctx _ _ _ h

theorem completeTransition_inv (s : DeckState) (h : DeckInv s) :
    DeckInv (completeTransition s) := by
  unfold completeTransition
  split
  · exact h
  · unfold DeckInv at h ⊢
    simpa [setPanelVisibility, setPanelA11y, setZ, maxIdxOf] using h

theorem pendingNavEffect_inv (ctx : Ctx) (s : DeckState) (id : String)
    (h : DeckInv s) : DeckInv (pendingNavEffect ctx s id).1 := by
  unfold pendingNavEffect
  simp only []
  repeat' split
  any_goals exact h
  all_goals exact goToIndex_inv ctx s _ _ h

theorem applyStep_inv (ctx : Ctx) (s : DeckState) (st : DeckStep)
    (h : DeckInv s) : DeckInv (applyStep ctx s st) := by
  cases st with
  | nav n opts => exact goToIndex_inv ctx s n opts h
  | wheel d t => exact onWheel_inv ctx s d t h
  | tstart y =>
      show DeckInv (onTouchStart ctx s y)
      unfold onTouchStart
      repeat' split
      all_goals exact h
  | tmove y t => exact onTouchMove_inv ctx s y t h
  | tend => exact h
  | complete => exact completeTransition_inv s h
  | pending id => exact pendingNavEffect_inv ctx s id h

theorem runSteps_inv (ctx : Ctx) (steps : List DeckStep) (s : DeckState)
    (h : DeckInv s) : DeckInv (runSteps ctx s steps) := by
  induction steps generalizing s with
  | nil => exact h
  | cons st rest ih => exact ih _ (applyStep_inv ctx s st h)

theorem onWheel_fst_panels_length (ctx : Ctx) (s : DeckState) (d t : Int) :
    (onWheel ctx s d t).1.panels.length = s.panels.length := by
  unfold onWheel
  simp only []
  repeat' split
  any_goals rfl
  all_goals exact goToIndex_fst_panels_length ctx s _ _

theorem onTouchMove_fst_panels_length (ctx : Ctx) (s : DeckState) (y t : Int) :
    (onTouchMove ctx s y t).1.panels.length = s.panels.length := by
  unfold onTouchMove
  simp only []
  repeat' split
  any_goals rfl
  all_goals exact goToIndex_fst_panels_length ctx _ _ _

theorem completeTransition_panels_length (s : DeckState) :
    (completeTransition s).panels.length = s.panels.length := by
  unfold completeTransition
  split
  · rfl
  · simp [setPanelVisibility, setPanelA11y, setZ]

theorem pendingNavEffect_fst_panels_length (ctx : Ctx) (s : DeckState) (id : String) :
    (pendingNavEffect ctx s id).1.panels.length = s.panels.length := by
  unfold pendingNavEffect
  simp only []
  repeat' split
  any_goals rfl
  all_goals exact goToIndex_fst_panels_length ctx s _ _

theorem applyStep_panels_length (ctx : Ctx) (s : DeckState) (st : DeckStep) :
    (applyStep ctx s st).panels.length = s.panels.length := by
  cases st with
  | nav n opts => exact goToIndex_fst_panels_length ctx s n opts
  | wheel d t => exact onWheel_fst_panels_length ctx s d t
  | tstart y =>
      show (onTouchStart ctx s y).panels.length = s.panels.length
      unfold onTouchStart
      repeat' split
      all_goals rfl
  | tmove y t => exact onTouchMove_fst_panels_length ctx s y t
  | tend => rfl
  | complete => exact completeTransition_panels_length s
  | pending id => exact pendingNavEffect_fst_panels_length ctx s id

theorem runSteps_panels_length (ctx : Ctx) (steps : List DeckStep) (s : DeckState) :
    (runSteps ctx s steps).panels.length = s.panels.length := by
  induction steps generalizing s with
  | nil => rfl
  | cons st rest ih =>
      calc (runSteps ctx s (st :: rest)).panels.length
          = (applyStep ctx s st).panels.length := ih (applyStep ctx s st)
        _ = s.panels.length := applyStep_panels_length ctx s st

/-- C1: for every sequence of navigation requests (wheel, touch, or
`goToIndex` with any integer argument, including repeated boundary hits),
the deck's `activeIndex` stays in `[0, min(sectionCount, panelCount)-1]`;
moreover, one further `goToIndex` with an arbitrary integer target either
leaves the index unchanged (a dropped request) or sets it to the target
silently clamped into that same range — never wrapped around.  The model
has no error channel: no navigation request produces an error value. -/
theorem deck_activeIndex_range_invariant (ctx : Ctx)
    (panels : List (Option Panel)) (steps : List DeckStep)
    (h : 0 < panels.length) :
    0 ≤ (runSteps ctx (initState panels) steps).activeIndex ∧
    (runSteps ctx (initState panels) steps).activeIndex ≤
      min ((SECTION_ORDER.length : Int) - 1) ((panels.length : Int) - 1) ∧
    ∀ n opts,
      (goToIndex ctx (runSteps ctx (initState panels) steps) n opts).1.activeIndex =
          (runSteps ctx (initState panels) steps).activeIndex ∨
      (goToIndex ctx (runSteps ctx (initState panels) steps) n opts).1.activeIndex =
          clamp n 0 (min ((SECTION_ORDER.length : Int) - 1) ((panels.length : Int) - 1)) := by
  have hlen := runSteps_panels_length ctx steps (initState panels)
  have hinit : DeckInv (initState panels) := by
    unfold DeckInv initState maxIdxOf
    simp [SECTION_ORDER]
    omega
  have hinv := runSteps_inv ctx steps (initState panels) hinit
  have hmax : maxIdxOf (runSteps ctx (initState panels) steps) =
      min ((SECTION_ORDER.length : Int) - 1) ((panels.length : Int) - 1) := by
    unfold maxIdxOf
    rw [hlen]
    rfl
  refine ⟨hinv.1, ?_, ?_⟩
  · rw [← hmax]; exact hinv.2
  · intro n opts
    rcases goToIndex_fst_activeIndex ctx (runSteps ctx (initState panels) steps) n opts with
      ha | ha
    · exact Or.inl ha
    · exact Or.inr (by rw [ha, hmax])

/-- A concrete mounted panel used by the witnesses: scrollable content of
height 200 in a viewport of height 100, currently at the top. -/
def samplePanel : Panel :=
  { scrollTop := 0, scrollHeight := 200, clientHeight := 100,
    visible := true, pointerEvents := true, zIndex := 20,
    ariaHidden := false, inert := false }

/-- A production context: quote modal closed, motion allowed, fine pointer. -/
def sampleCtx : Ctx :=
  { isQuoteOpen := false, prefersReducedMotion := false, isCoarsePointer := false }

/-- Witness for C1 at a concrete deck: two panels, a run that hammers the
boundaries (`goToIndex(99)`, `goToIndex(-7)`, wheel and touch events),
after which one more arbitrary request is checked. -/
theorem deck_activeIndex_range_invariant_witness :
    0 < ([some samplePanel, some samplePanel] : List (Option Panel)).length ∧
    (0 ≤ (runSteps sampleCtx (initState [some samplePanel, some samplePanel])
        [.nav 99 {}, .nav (-7) {}, .wheel 10 0, .tstart 500, .tmove 400 1, .tend,
         .complete, .pending "projects"]).activeIndex ∧
     (runSteps sampleCtx (initState [some samplePanel, some samplePanel])
        [.nav 99 {}, .nav (-7) {}, .wheel 10 0, .tstart 500, .tmove 400 1, .tend,
         .complete, .pending "projects"]).activeIndex ≤
       min ((SECTION_ORDER.length : Int) - 1)
         ((([some samplePanel, some samplePanel] : List (Option Panel)).length : Int) - 1)) := by
  refine ⟨by decide, ?_, ?_⟩
  · exact (deck_activeIndex_range_invariant sampleCtx
      [some samplePanel, some samplePanel]
      [.nav 99 {}, .nav (-7) {}, .wheel 10 0, .tstart 500, .tmove 400 1, .tend,
       .complete, .pending "projects"] (by decide)).1
  · exact (deck_activeIndex_range_invariant sampleCtx
      [some samplePanel, some samplePanel]
      [.nav 99 {}, .nav (-7) {}, .wheel 10 0, .tstart 500, .tmove 400 1, .tend,
       .complete, .pending "projects"] (by decide)).2.1

theorem goToIndex_dropped (ctx : Ctx) (s : DeckState) (n : Int) (o : NavOpts)
    (hne : clamp n 0 (maxIdxOf s) ≠ s.activeIndex)
    (hblock : s.isTransitioning = true ∨ ctx.isQuoteOpen = true) :
    goToIndex ctx s n o = (s, []) := by
  unfold goToIndex
  simp only []
  rw [if_neg hne]
  rcases hblock with hb | hb
  · rw [if_pos hb]
  · rw [hb]
    split
    · rfl
    · rfl

theorem goToIndex_accepted_animated (ctx : Ctx) (s : DeckState) (n : Int) (o : NavOpts)
    (hne : clamp n 0 (maxIdxOf s) ≠ s.activeIndex)
    (ht : s.isTransitioning = false) (hq : ctx.isQuoteOpen = false)
    (hrm : ctx.prefersReducedMotion = false)
    (pc pt : Panel)
    (hcur : getPanel s s.activeIndex = some pc)
    (htgt : getPanel s (clamp n 0 (maxIdxOf s)) = some pt) :
    (goToIndex ctx s n o).1.isTransitioning = true ∧
    (goToIndex ctx s n o).1.activeIndex = clamp n 0 (maxIdxOf s) := by
  have hcur' : getPanel { s with isTransitioning := true } s.activeIndex = some pc := hcur
  have htgt' : getPanel { s with isTransitioning := true }
      (clamp n 0 (maxIdxOf s)) = some pt := htgt
  unfold goToIndex
  simp only []
  rw [if_neg hne, ht, hq, hrm]
  simp only [Bool.false_eq_true, if_false, hcur', htgt']
  constructor <;>
    (split_ifs <;>
      simp [setPanelVisibility, setPanelA11y, setZ, scrollPanelTo, maxIdxOf, clamp_clamp])

/-- C2: a `goToIndex` call whose (clamped) target differs from the current
index is dropped silently — state unchanged, no events — whenever a
transition is in flight or the blocking quote modal is open; consequently,
of two back-to-back `goToIndex` calls with no intervening completion
(first call accepted, animated), the second has no effect and the final
active index is exactly the first call's clamped target. -/
theorem goToIndex_reentrant_or_modal_dropped :
    (∀ ctx s n o, clamp n 0 (maxIdxOf s) ≠ s.activeIndex →
      (s.isTransitioning = true ∨ ctx.isQuoteOpen = true) →
      goToIndex ctx s n o = (s, [])) ∧
    (∀ ctx s n₁ o₁ n₂ o₂ pc pt,
      s.isTransitioning = false → ctx.isQuoteOpen = false →
      ctx.prefersReducedMotion = false →
      getPanel s s.activeIndex = some pc →
      getPanel s (clamp n₁ 0 (maxIdxOf s)) = some pt →
      clamp n₁ 0 (maxIdxOf s) ≠ s.activeIndex →
      clamp n₂ 0 (maxIdxOf s) ≠ clamp n₁ 0 (maxIdxOf s) →
      goToIndex ctx (goToIndex ctx s n₁ o₁).1 n₂ o₂ =
          ((goToIndex ctx s n₁ o₁).1, []) ∧
      (goToIndex ctx s n₁ o₁).1.activeIndex = clamp n₁ 0 (maxIdxOf s)) := by
  constructor
  · intro ctx s n o hne hblock
    exact goToIndex_dropped ctx s n o hne hblock
  · intro ctx s n₁ o₁ n₂ o₂ pc pt ht hq hrm hcur htgt hne₁ hne₂
    obtain ⟨htr, hai⟩ :=
      goToIndex_accepted_animated ctx s n₁ o₁ hne₁ ht hq hrm pc pt hcur htgt
    have hmax : maxIdxOf (goToIndex ctx s n₁ o₁).1 = maxIdxOf s :=
      maxIdxOf_eq_of_length (goToIndex_fst_panels_length ctx s n₁ o₁)
    refine ⟨?_, hai⟩
    apply goToIndex_dropped
    · rw [hmax, hai]; exact hne₂
    · exact Or.inl htr

/-- A deck state mid-transition, used by the C2 witness. -/
def sampleTransitioning : DeckState :=
  { initState [some samplePanel, some samplePanel] with isTransitioning := true }

/-- Witness for C2: in a two-panel deck, a `goToIndex(1)` issued while
transitioning is dropped, and after an accepted `goToIndex(1)` a
back-to-back `goToIndex(0)` is dropped, leaving `activeIndex = 1`. -/
theorem goToIndex_reentrant_or_modal_dropped_witness :
    goToIndex sampleCtx sampleTransitioning 1 {} = (sampleTransitioning, []) ∧
    (goToIndex sampleCtx
        (goToIndex sampleCtx (initState [some samplePanel, some samplePanel]) 1 {}).1 0 {} =
      ((goToIndex sampleCtx (initState [some samplePanel, some samplePanel]) 1 {}).1, []) ∧
     (goToIndex sampleCtx (initState [some samplePanel, some samplePanel]) 1 {}).1.activeIndex =
      clamp 1 0 (maxIdxOf (initState [some samplePanel, some samplePanel]))) := by
  constructor
  · exact goToIndex_reentrant_or_modal_dropped.1 sampleCtx sampleTransitioning 1 {}
      (by decide) (Or.inl (by decide))
  · exact goToIndex_reentrant_or_modal_dropped.2 sampleCtx
      (initState [some samplePanel, some samplePanel]) 1 {} 0 {}
      samplePanel samplePanel (by decide) (by decide) (by decide)
      (by decide) (by decide) (by decide) (by decide)

theorem get_modifyNth_self (f : α → α) (n : Nat) (l : List α) :
    (modifyNth f n l).get? n = (l.get? n).map f := by
  induction l generalizing n with
  | nil => cases n <;> rfl
  | cons a as ih => cases n with
    | zero => rfl
    | succ m => simpa [modifyNth] using ih m

theorem map_modifyNth (f : α → α) (g : α → β) (n : Nat) (l : List α)
    (h : ∀ a, g (f a) = g a) : (modifyNth f n l).map g = l.map g := by
  induction l generalizing n with
  | nil => cases n <;> rfl
  | cons a as ih => cases n with
    | zero => simp [modifyNth, h]
    | succ m => simp [modifyNth, ih m]

theorem getPanel_nonneg {s : DeckState} {i : Int} {p : Panel}
    (h : getPanel s i = some p) : 0 ≤ i := by
  by_contra hneg
  rw [getPanel, if_pos (by omega)] at h
  cases h

theorem getPanel_updatePanel_self (s : DeckState) (i : Int) (f : Panel → Panel)
    (h : 0 ≤ i) : getPanel (updatePanel s i f) i = (getPanel s i).map f := by
  unfold getPanel updatePanel
  rw [if_neg (not_lt.mpr h), if_neg (not_lt.mpr h), if_neg (not_lt.mpr h)]
  rw [get_modifyNth_self]
  cases s.panels.get? i.toNat with
  | none => rfl
  | some a => cases a <;> rfl

/-- The non-scroll DOM state of one panel slot: visibility,
pointer-interactivity, z-order, `aria-hidden`, `inert`. -/
def panelMeta (p : Option Panel) : Option (Bool × Bool × Nat × Bool × Bool) :=
  p.map (fun q => (q.visible, q.pointerEvents, q.zIndex, q.ariaHidden, q.inert))

theorem panels_map_panelMeta_scrollPanelTo (s : DeckState) (i : Int) (pos : String) :
    (scrollPanelTo s i pos).panels.map panelMeta = s.panels.map panelMeta := by
  unfold scrollPanelTo updatePanel
  split
  · rfl
  · refine map_modifyNth _ _ _ _ ?_
    intro a
    cases a with
    | none => rfl
    | some p => rfl

/-- C3: a `goToIndex` call whose clamped target equals the current index
performs no panel switch: with `resetTargetScroll` it exactly repositions
the active panel's scroll offset per `targetScrollPosition` and
re-publishes the deck state event, without one; otherwise the call is a
strict no-op — and in all cases the visibility, pointer-interactivity,
z-order, accessibility state of every panel, the transition flag, and the
active index are unchanged. -/
theorem goToIndex_same_index_idempotent (ctx : Ctx) (s : DeckState) (n : Int)
    (o : NavOpts) (hsame : clamp n 0 (maxIdxOf s) = s.activeIndex) :
    (goToIndex ctx s n o).1.panels.map panelMeta = s.panels.map panelMeta ∧
    (goToIndex ctx s n o).1.isTransitioning = s.isTransitioning ∧
    (goToIndex ctx s n o).1.activeIndex = s.activeIndex ∧
    (o.resetTargetScroll = false → goToIndex ctx s n o = (s, [])) ∧
    (o.resetTargetScroll = true →
      (goToIndex ctx s n o).1 =
        scrollPanelTo s s.activeIndex o.targetScrollPosition ∧
      (goToIndex ctx s n o).2 =
        [publishDeckState (scrollPanelTo s s.activeIndex o.targetScrollPosition)
          s.activeIndex] ∧
      ∀ p, getPanel s s.activeIndex = some p →
        getPanel (goToIndex ctx s n o).1 s.activeIndex =
          some { p with scrollTop := scrollTargetOffset p o.targetScrollPosition }) := by
  have hgo : goToIndex ctx s n o =
      if o.resetTargetScroll = true
      then (scrollPanelTo s s.activeIndex o.targetScrollPosition,
        [publishDeckState (scrollPanelTo s s.activeIndex o.targetScrollPosition)
          s.activeIndex])
      else (s, []) := by
    unfold goToIndex
    simp only []
    rw [if_pos hsame]
  by_cases hr : o.resetTargetScroll = true
  · rw [hgo, if_pos hr]
    refine ⟨panels_map_panelMeta_scrollPanelTo s s.activeIndex o.targetScrollPosition,
      by simp [scrollPanelTo], by simp [scrollPanelTo], ?_, ?_⟩
    · intro hfalse; rw [hfalse] at hr; cases hr
    · intro _
      refine ⟨rfl, rfl, ?_⟩
      intro p hp
      have h0 : 0 ≤ s.activeIndex := getPanel_nonneg hp
      rw [scrollPanelTo, getPanel_updatePanel_self s s.activeIndex _ h0, hp]
      rfl
  · have hr' : o.resetTargetScroll = false := by
      cases hb : o.resetTargetScroll
      · rfl
      · exact absurd hb hr
    rw [hgo, if_neg hr]
    exact ⟨rfl, rfl, rfl, fun _ => rfl, fun htrue => absurd htrue hr⟩

/-- Witness for C3: a same-index `goToIndex(0, resetTargetScroll)` on a
two-panel deck leaves the transition flag and every panel's
visibility/accessibility/z-order unchanged. -/
theorem goToIndex_same_index_idempotent_witness :
    clamp 0 0 (maxIdxOf (initState [some samplePanel, some samplePanel])) =
      (initState [some samplePanel, some samplePanel]).activeIndex ∧
    (goToIndex sampleCtx (initState [some samplePanel, some samplePanel])
        0 topEntryOpts).1.isTransitioning =
      (initState [some samplePanel, some samplePanel]).isTransitioning ∧
    (goToIndex sampleCtx (initState [some samplePanel, some samplePanel])
        0 topEntryOpts).1.panels.map panelMeta =
      (initState [some samplePanel, some samplePanel]).panels.map panelMeta := by
  refine ⟨by decide, ?_, ?_⟩
  · exact (goToIndex_same_index_idempotent sampleCtx
      (initState [some samplePanel, some samplePanel]) 0 topEntryOpts (by decide)).2.1
  · exact (goToIndex_same_index_idempotent sampleCtx
      (initState [some samplePanel, some samplePanel]) 0 topEntryOpts (by decide)).1

/-- C4: when `goToIndex` accepts a request for a different index but the
outgoing or the incoming panel element is missing, the visual transition
is aborted (no panel's DOM state is touched and no completion callback is
left pending), yet the logical index change is still committed to the
clamped target and the machine returns to `Idle`
(`isTransitioning = false`). -/
theorem goToIndex_missing_element_commits (ctx : Ctx) (s : DeckState)
    (n : Int) (o : NavOpts)
    (hne : clamp n 0 (maxIdxOf s) ≠ s.activeIndex)
    (ht : s.isTransitioning = false) (hq : ctx.isQuoteOpen = false)
    (hmiss : getPanel s s.activeIndex = none ∨
             getPanel s (clamp n 0 (maxIdxOf s)) = none) :
    (goToIndex ctx s n o).1.activeIndex = clamp n 0 (maxIdxOf s) ∧
    (goToIndex ctx s n o).1.isTransitioning = false ∧
    (goToIndex ctx s n o).1.panels = s.panels ∧
    (goToIndex ctx s n o).1.pendingComplete = s.pendingComplete := by
  unfold goToIndex
  simp only []
  rw [if_neg hne, ht, hq]
  simp only [Bool.false_eq_true, if_false]
  rcases hmiss with hm | hm <;>
    [(cases htgt : getPanel { s with isTransitioning := true }
        (clamp n 0 (maxIdxOf s)) <;>
      simp only [show getPanel { s with isTransitioning := true } s.activeIndex = none
          from hm, htgt]);
     (cases hcur : getPanel { s with isTransitioning := true } s.activeIndex <;>
      simp only [hcur,
        show getPanel { s with isTransitioning := true }
            (clamp n 0 (maxIdxOf s)) = none from hm])] <;>
    simp [maxIdxOf, clamp_clamp]

/-- Witness for C4: a two-slot deck whose second panel element is not
mounted; `goToIndex(1)` still commits `activeIndex = 1` and stays idle. -/
theorem goToIndex_missing_element_commits_witness :
    clamp 1 0 (maxIdxOf (initState [some samplePanel, none])) ≠
      (initState [some samplePanel, none]).activeIndex ∧
    (goToIndex sampleCtx (initState [some samplePanel, none]) 1 {}).1.activeIndex =
      clamp 1 0 (maxIdxOf (initState [some samplePanel, none])) ∧
    (goToIndex sampleCtx (initState [some samplePanel, none]) 1 {}).1.isTransitioning =
      false := by
  refine ⟨by decide, ?_, ?_⟩
  · exact (goToIndex_missing_element_commits sampleCtx
      (initState [some samplePanel, none]) 1 {} (by decide) (by decide) (by decide)
      (Or.inr (by decide))).1
  · exact (goToIndex_missing_element_commits sampleCtx
      (initState [some samplePanel, none]) 1 {} (by decide) (by decide) (by decide)
      (Or.inr (by decide))).2.1

/-- C5: a wheel event converts into a deck-navigation request only at a
scroll boundary of the active panel: a request is issued only with
`delta > 0` at the bottom edge (targeting `current + 1`) or `delta < 0`
at the top edge (targeting `current - 1`); a wheel event whose direction
does not match the corresponding edge returns the state unchanged (in
particular `activeIndex` is unchanged) and issues no request. -/
theorem onWheel_edge_gated (ctx : Ctx) (s : DeckState) (delta now : Int)
    (el : Panel) (hel : getPanel s s.activeIndex = some el) :
    (∀ r, (onWheel ctx s delta now).2.2 = some r →
      (delta > 0 ∧ atBottomEdge el = true ∧ r.target = s.activeIndex + 1) ∨
      (delta < 0 ∧ atTopEdge el = true ∧ r.target = s.activeIndex - 1)) ∧
    (delta > 0 → atBottomEdge el = false → onWheel ctx s delta now = (s, [], none)) ∧
    (delta < 0 → atTopEdge el = false → onWheel ctx s delta now = (s, [], none)) := by
  unfold onWheel
  simp only []
  by_cases hq : ctx.isQuoteOpen = true
  · rw [if_pos hq]
    exact ⟨fun _ hr => Option.noConfusion hr, fun _ _ => rfl, fun _ _ => rfl⟩
  rw [if_neg hq]
  by_cases hcd : now < s.boundaryCooldownUntil
  · rw [if_pos hcd]
    exact ⟨fun _ hr => Option.noConfusion hr, fun _ _ => rfl, fun _ _ => rfl⟩
  rw [if_neg hcd]
  by_cases htr : s.isTransitioning = true
  · rw [if_pos htr]
    exact ⟨fun _ hr => Option.noConfusion hr, fun _ _ => rfl, fun _ _ => rfl⟩
  rw [if_neg htr]
  rw [hel]
  dsimp only
  by_cases hab : delta.natAbs < 2
  · rw [if_pos hab]
    exact ⟨fun _ hr => Option.noConfusion hr, fun _ _ => rfl, fun _ _ => rfl⟩
  rw [if_neg hab]
  by_cases hd : delta > 0
  · rw [if_pos hd]
    by_cases hbot : atBottomEdge el = true
    · rw [if_neg (not_not_intro hbot)]
      by_cases hmax : s.activeIndex ≥ maxIdxOf s
      · rw [if_pos hmax]
        refine ⟨fun _ hr => Option.noConfusion hr, ?_, ?_⟩
        · intro _ hnb; rw [hbot] at hnb; cases hnb
        · intro hneg _; omega
      · rw [if_neg hmax]
        refine ⟨fun r hr => ?_, ?_, ?_⟩
        · cases hr; exact Or.inl ⟨hd, hbot, rfl⟩
        · intro _ hnb; rw [hbot] at hnb; cases hnb
        · intro hneg _; omega
    · have hbot' : ¬ (atBottomEdge el = true) := hbot
      rw [if_pos hbot']
      exact ⟨fun _ hr => Option.noConfusion hr, fun _ _ => rfl, fun hneg _ => (by omega)⟩
  · rw [if_neg hd]
    by_cases htop : atTopEdge el = true
    · rw [if_neg (not_not_intro htop)]
      by_cases hmin : s.activeIndex ≤ 0
      · rw [if_pos hmin]
        refine ⟨fun _ hr => Option.noConfusion hr, ?_, ?_⟩
        · intro hpos _; omega
        · intro _ hnt; rw [htop] at hnt; cases hnt
      · rw [if_neg hmin]
        refine ⟨fun r hr => ?_, ?_, ?_⟩
        · cases hr
          refine Or.inr ⟨by omega, htop, rfl⟩
        · intro hpos _; omega
        · intro _ hnt; rw [htop] at hnt; cases hnt
    · have htop' : ¬ (atTopEdge el = true) := htop
      rw [if_pos htop']
      exact ⟨fun _ hr => Option.noConfusion hr, fun hpos _ => (by omega), fun _ _ => rfl⟩

/-- A panel scrolled to its bottom edge, used by the wheel/touch
witnesses. -/
def bottomPanel : Panel :=
  { samplePanel with scrollTop := 100 }

/-- Witness for C5: on a deck whose active panel sits mid-scroll
(neither edge), a downward wheel event leaves the state unchanged, and on
a bottom-edge panel a downward wheel event issues the `current + 1`
request. -/
theorem onWheel_edge_gated_witness :
    getPanel (initState [some { samplePanel with scrollTop := 30 }, some samplePanel])
        (initState [some { samplePanel with scrollTop := 30 }, some samplePanel]).activeIndex =
      some { samplePanel with scrollTop := 30 } ∧
    onWheel sampleCtx
        (initState [some { samplePanel with scrollTop := 30 }, some samplePanel]) 10 0 =
      (initState [some { samplePanel with scrollTop := 30 }, some samplePanel], [], none) := by
  refine ⟨by decide, ?_⟩
  exact (onWheel_edge_gated sampleCtx
    (initState [some { samplePanel with scrollTop := 30 }, some samplePanel]) 10 0
    { samplePanel with scrollTop := 30 } (by decide)).2.1 (by decide) (by decide)

/-- C6: a downward boundary event at the last index produces no index
change and arms the cooldown (`boundaryCooldownUntil = now + 80`); the
symmetric property holds for upward events at index 0; and any wheel or
touch event arriving while the cooldown window is active
(`now < boundaryCooldownUntil`) leaves the state — in particular
`activeIndex` — completely unchanged. -/
theorem onWheel_boundary_hard_stop (ctx : Ctx) (s : DeckState)
    (delta now : Int) (el : Panel) :
    (ctx.isQuoteOpen = false → ¬ now < s.boundaryCooldownUntil →
      s.isTransitioning = false → getPanel s s.activeIndex = some el →
      ¬ delta.natAbs < 2 → delta > 0 → atBottomEdge el = true →
      s.activeIndex ≥ maxIdxOf s →
      onWheel ctx s delta now =
        ({ s with boundaryCooldownUntil := now + 80 }, [], none)) ∧
    (ctx.isQuoteOpen = false → ¬ now < s.boundaryCooldownUntil →
      s.isTransitioning = false → getPanel s s.activeIndex = some el →
      ¬ delta.natAbs < 2 → ¬ delta > 0 → atTopEdge el = true →
      s.activeIndex ≤ 0 →
      onWheel ctx s delta now =
        ({ s with boundaryCooldownUntil := now + 80 }, [], none)) ∧
    (∀ t, t < s.boundaryCooldownUntil → onWheel ctx s delta t = (s, [], none)) ∧
    (∀ y t, t < s.boundaryCooldownUntil → onTouchMove ctx s y t = (s, [], none)) := by
  refine ⟨?_, ?_, ?_, ?_⟩
  · intro hq hcd htr hel hab hd hbot hlast
    unfold onWheel
    simp only []
    rw [hq, htr]
    simp only [Bool.false_eq_true, if_false]
    rw [if_neg hcd, hel]
    dsimp only
    rw [if_neg hab, if_pos hd, if_neg (not_not_intro hbot), if_pos hlast]
  · intro hq hcd htr hel hab hd htop hfirst
    unfold onWheel
    simp only []
    rw [hq, htr]
    simp only [Bool.false_eq_true, if_false]
    rw [if_neg hcd, hel]
    dsimp only
    rw [if_neg hab, if_neg hd, if_neg (not_not_intro htop), if_pos hfirst]
  · intro t htlt
    unfold onWheel
    simp only []
    by_cases hq : ctx.isQuoteOpen = true
    · rw [if_pos hq]
    · rw [if_neg hq, if_pos htlt]
  · intro y t htlt
    unfold onTouchMove
    simp only []
    by_cases hq : ctx.isQuoteOpen = true
    · rw [if_pos hq]
    · rw [if_neg hq, if_pos htlt]

/-- Witness for C6: a one-panel deck at its bottom edge; a downward wheel
event arms the cooldown without an index change, and a subsequent wheel
and touch event inside the window are swallowed. -/
theorem onWheel_boundary_hard_stop_witness :
    onWheel sampleCtx (initState [some bottomPanel]) 10 0 =
      ({ initState [some bottomPanel] with boundaryCooldownUntil := 80 }, [], none) ∧
    onWheel sampleCtx
        { initState [some bottomPanel] with boundaryCooldownUntil := 80 } 10 50 =
      ({ initState [some bottomPanel] with boundaryCooldownUntil := 80 }, [], none) ∧
    onTouchMove sampleCtx
        { initState [some bottomPanel] with boundaryCooldownUntil := 80 } 0 50 =
      ({ initState [some bottomPanel] with boundaryCooldownUntil := 80 }, [], none) := by
  refine ⟨?_, ?_, ?_⟩
  · exact (onWheel_boundary_hard_stop sampleCtx (initState [some bottomPanel])
      10 0 bottomPanel).1 (by decide) (by decide) (by decide) (by decide)
      (by decide) (by decide) (by decide) (by decide)
  · exact (onWheel_boundary_hard_stop sampleCtx
      { initState [some bottomPanel] with boundaryCooldownUntil := 80 }
      10 0 bottomPanel).2.2.1 50 (by decide)
  · exact (onWheel_boundary_hard_stop sampleCtx
      { initState [some bottomPanel] with boundaryCooldownUntil := 80 }
      10 0 bottomPanel).2.2.2 0 50 (by decide)

/-- C7: every gesture-issued navigation request follows the directional
entry policy — forward requests target `current + 1` with
`resetTargetScroll: true, position: "top"`, backward requests target
`current - 1` with `resetTargetScroll: true, position: "bottom"` — while
every request issued by the pending-navigation bridge uses
`resetTargetScroll: true, position: "top"` unconditionally. -/
theorem gesture_and_external_entry_policy :
    (∀ ctx s delta now r, (onWheel ctx s delta now).2.2 = some r →
      (r.target = s.activeIndex + 1 ∧ r.opts.resetTargetScroll = true ∧
        r.opts.targetScrollPosition = "top") ∨
      (r.target = s.activeIndex - 1 ∧ r.opts.resetTargetScroll = true ∧
        r.opts.targetScrollPosition = "bottom")) ∧
    (∀ ctx s y now r, (onTouchMove ctx s y now).2.2 = some r →
      (r.target = s.activeIndex + 1 ∧ r.opts.resetTargetScroll = true ∧
        r.opts.targetScrollPosition = "top") ∨
      (r.target = s.activeIndex - 1 ∧ r.opts.resetTargetScroll = true ∧
        r.opts.targetScrollPosition = "bottom")) ∧
    (∀ ctx s id r, (pendingNavEffect ctx s id).2.2 = some r →
      r.target = getIndexById id ∧ r.opts.resetTargetScroll = true ∧
        r.opts.targetScrollPosition = "top") := by
  refine ⟨?_, ?_, ?_⟩
  · intro ctx s delta now r
    unfold onWheel
    simp only []
    repeat' split
    all_goals intro hr
    all_goals
      first
      | exact Option.noConfusion hr
      | (cases hr; exact Or.inl ⟨rfl, rfl, rfl⟩)
      | (cases hr; exact Or.inr ⟨rfl, rfl, rfl⟩)
  · intro ctx s y now r
    unfold onTouchMove
    simp only []
    repeat' split
    all_goals intro hr
    all_goals
      first
      | exact Option.noConfusion hr
      | (cases hr; exact Or.inl ⟨rfl, rfl, rfl⟩)
      | (cases hr; exact Or.inr ⟨rfl, rfl, rfl⟩)
  · intro ctx s id r
    unfold pendingNavEffect
    simp only []
    repeat' split
    all_goals intro hr
    all_goals
      first
      | exact Option.noConfusion hr
      | (cases hr; exact ⟨rfl, rfl, rfl⟩)

/-- Witness for C7: a bottom-edge two-panel deck; the downward wheel
request is `(1, top)` and matches the forward policy, and the pending
bridge's request for `"about"` is `(1, top)`. -/
theorem gesture_and_external_entry_policy_witness :
    (onWheel sampleCtx (initState [some bottomPanel, some samplePanel]) 10 0).2.2 =
      some ⟨1, topEntryOpts⟩ ∧
    (((⟨1, topEntryOpts⟩ : NavRequest).target =
        (initState [some bottomPanel, some samplePanel]).activeIndex + 1 ∧
      (⟨1, topEntryOpts⟩ : NavRequest).opts.resetTargetScroll = true ∧
      (⟨1, topEntryOpts⟩ : NavRequest).opts.targetScrollPosition = "top") ∨
     ((⟨1, topEntryOpts⟩ : NavRequest).target =
        (initState [some bottomPanel, some samplePanel]).activeIndex - 1 ∧
      (⟨1, topEntryOpts⟩ : NavRequest).opts.resetTargetScroll = true ∧
      (⟨1, topEntryOpts⟩ : NavRequest).opts.targetScrollPosition = "bottom")) ∧
    (pendingNavEffect sampleCtx (initState [some bottomPanel, some samplePanel])
        "about").2.2 = some ⟨1, topEntryOpts⟩ ∧
    ((⟨1, topEntryOpts⟩ : NavRequest).target = getIndexById "about" ∧
     (⟨1, topEntryOpts⟩ : NavRequest).opts.resetTargetScroll = true ∧
     (⟨1, topEntryOpts⟩ : NavRequest).opts.targetScrollPosition = "top") := by
  refine ⟨by decide, ?_, by decide, ?_⟩
  · exact gesture_and_external_entry_policy.1 sampleCtx
      (initState [some bottomPanel, some samplePanel]) 10 0 ⟨1, topEntryOpts⟩ (by decide)
  · exact gesture_and_external_entry_policy.2.2 sampleCtx
      (initState [some bottomPanel, some samplePanel]) "about" ⟨1, topEntryOpts⟩ (by decide)

theorem applyActive_snd_no_pendingHandled (s : DeckState) (i : Int) :
    Evt.pendingHandled ∉ (applyActive s i).2 := by
  unfold applyActive
  simp only []
  split <;> simp

theorem goToIndex_snd_no_pendingHandled (ctx : Ctx) (s : DeckState) (n : Int)
    (o : NavOpts) : Evt.pendingHandled ∉ (goToIndex ctx s n o).2 := by
  unfold goToIndex
  simp only []
  repeat' split
  any_goals simp
  all_goals
    first
    | exact applyActive_snd_no_pendingHandled _ _
    | simp [publishDeckState]

/-- C8: one run of the pending-navigation effect for a non-empty pending
section id signals completion (`onPendingHandled`) exactly once — also
when the id does not resolve to a known section, in which case the deck
state is additionally left unchanged. -/
theorem pending_navigation_handled_exactly_once (ctx : Ctx) (s : DeckState)
    (id : String) (h : id ≠ "") :
    (pendingNavEffect ctx s id).2.1.count Evt.pendingHandled = 1 ∧
    (getIndexById id < 0 → (pendingNavEffect ctx s id).1 = s) := by
  constructor
  · unfold pendingNavEffect
    simp only []
    rw [if_neg h]
    split
    · rw [List.count_append]
      rw [List.count_eq_zero.mpr (goToIndex_snd_no_pendingHandled ctx s _ _)]
      rfl
    · rfl
  · intro hlt
    unfold pendingNavEffect
    simp only []
    rw [if_neg h, if_neg (by omega)]

/-- Witness for C8: a resolving id (`"projects"`) and a non-resolving id
(`"bogus"`) each produce exactly one completion signal. -/
theorem pending_navigation_handled_exactly_once_witness :
    (pendingNavEffect sampleCtx (initState [some samplePanel, some samplePanel])
        "projects").2.1.count Evt.pendingHandled = 1 ∧
    (pendingNavEffect sampleCtx (initState [some samplePanel, some samplePanel])
        "bogus").2.1.count Evt.pendingHandled = 1 ∧
    (pendingNavEffect sampleCtx (initState [some samplePanel, some samplePanel])
        "bogus").1 = initState [some samplePanel, some samplePanel] := by
  refine ⟨?_, ?_, ?_⟩
  · exact (pending_navigation_handled_exactly_once sampleCtx
      (initState [some samplePanel, some samplePanel]) "projects" (by decide)).1
  · exact (pending_navigation_handled_exactly_once sampleCtx
      (initState [some samplePanel, some samplePanel]) "bogus" (by decide)).1
  · exact (pending_navigation_handled_exactly_once sampleCtx
      (initState [some samplePanel, some samplePanel]) "bogus" (by decide)).2
      (by decide)

theorem goToIndex_fst_touchTriggered (ctx : Ctx) (s : DeckState) (n : Int)
    (o : NavOpts) : (goToIndex ctx s n o).1.touchTriggered = s.touchTriggered := by
  unfold goToIndex
  simp only []
  repeat' split
  all_goals simp [setPanelVisibility, setPanelA11y, setZ, scrollPanelTo]

theorem onTouchMove_triggered_noop (ctx : Ctx) (s : DeckState) (y t : Int)
    (h : s.touchTriggered = true) : onTouchMove ctx s y t = (s, [], none) := by
  unfold onTouchMove
  simp only []
  by_cases hq : ctx.isQuoteOpen = true
  · rw [if_pos hq]
  rw [if_neg hq]
  by_cases hcd : t < s.boundaryCooldownUntil
  · rw [if_pos hcd]
  rw [if_neg hcd]
  by_cases htr : s.isTransitioning = true
  · rw [if_pos htr]
  rw [if_neg htr, h]
  simp only [if_true]

theorem onTouchMove_spec (ctx : Ctx) (s : DeckState) (y t : Int) :
    ((onTouchMove ctx s y t).2.2 = none ∧
      (onTouchMove ctx s y t).1.touchTriggered = s.touchTriggered) ∨
    ((onTouchMove ctx s y t).2.2.isSome = true ∧
      (onTouchMove ctx s y t).1.touchTriggered = true) := by
  unfold onTouchMove
  simp only []
  repeat' split
  all_goals
    first
    | exact Or.inl ⟨rfl, rfl⟩
    | (refine Or.inr ⟨rfl, ?_⟩; rw [goToIndex_fst_touchTriggered])

/-- Fold a list of `(clientY, now)` touch-move samples through
`onTouchMove`, counting how many of them issued a navigation request. -/
def processMoves (ctx : Ctx) (s : DeckState) : List (Int × Int) → DeckState × Nat
  | [] => (s, 0)
  | (y, t) :: rest =>
    let step := onTouchMove ctx s y t
    let tail := processMoves ctx step.1 rest
    (tail.1, (if step.2.2.isSome then 1 else 0) + tail.2)

theorem processMoves_triggered_zero (ctx : Ctx) (ms : List (Int × Int))
    (s : DeckState) (h : s.touchTriggered = true) :
    processMoves ctx s ms = (s, 0) := by
  induction ms generalizing s with
  | nil => rfl
  | cons m rest ih =>
      obtain ⟨y, t⟩ := m
      unfold processMoves
      simp only [onTouchMove_triggered_noop ctx s y t h, ih s h]
      rfl

theorem processMoves_count_le_one (ctx : Ctx) (ms : List (Int × Int))
    (s : DeckState) :
    (s.touchTriggered = true → (processMoves ctx s ms).2 = 0) ∧
    (processMoves ctx s ms).2 ≤ 1 := by
  induction ms generalizing s with
  | nil => exact ⟨fun _ => rfl, by simp [processMoves]⟩
  | cons m rest ih =>
      obtain ⟨y, t⟩ := m
      constructor
      · intro h
        rw [processMoves_triggered_zero ctx ((y, t) :: rest) s h]
      · unfold processMoves
        simp only []
        rcases onTouchMove_spec ctx s y t with ⟨hn, _⟩ | ⟨hs, htr⟩
        · rw [hn]
          simpa using (ih (onTouchMove ctx s y t).1).2
        · rw [Option.isSome_iff_exists] at hs
          obtain ⟨v, hv⟩ := hs
          rw [hv]
          simp only [Option.isSome_some, if_true]
          have h0 := (ih (onTouchMove ctx s y t).1).1 htr
          omega

/-- C9: within one touch-contact lifetime at most one navigation request
is issued: over any sequence of touch-move samples the number of issued
requests is at most one; once the per-gesture latch is set, every further
touch-move is a strict no-op (state unchanged, no request); a touch-move
below the 26px displacement threshold issues no request; and only
touch-end/cancel resets the latch. -/
theorem touch_gesture_at_most_one_navigation :
    (∀ ctx s ms, (processMoves ctx s ms).2 ≤ 1) ∧
    (∀ ctx s y t, s.touchTriggered = true → onTouchMove ctx s y t = (s, [], none)) ∧
    (∀ ctx s y t, (s.touchStartY - y).natAbs < 26 →
      (onTouchMove ctx s y t).2.2 = none) ∧
    (∀ s, (onTouchEnd s).touchTriggered = false) := by
  refine ⟨?_, ?_, ?_, ?_⟩
  · intro ctx s ms
    exact (processMoves_count_le_one ctx ms s).2
  · intro ctx s y t h
    exact onTouchMove_triggered_noop ctx s y t h
  · intro ctx s y t hthr
    unfold onTouchMove
    simp only []
    repeat' split
    all_goals first | rfl | omega
  · intro s
    rfl

/-- Witness for C9: a two-panel deck at the bottom edge; a drag of 100px
fires once, the follow-up move in the same gesture is ignored (request
count over both moves is at most one, and the triggered state blocks the
second move), a 10px move is below threshold, and touch-end clears the
latch. -/
theorem touch_gesture_at_most_one_navigation_witness :
    (processMoves sampleCtx
        (onTouchStart sampleCtx (initState [some bottomPanel, some samplePanel]) 500)
        [(400, 1), (300, 2)]).2 ≤ 1 ∧
    onTouchMove sampleCtx
        { initState [some bottomPanel, some samplePanel] with touchTriggered := true }
        300 200 =
      ({ initState [some bottomPanel, some samplePanel] with touchTriggered := true },
        [], none) ∧
    (onTouchMove sampleCtx (initState [some bottomPanel, some samplePanel]) (-10) 0).2.2 =
      none ∧
    (onTouchEnd { initState [some bottomPanel, some samplePanel] with
        touchTriggered := true }).touchTriggered = false := by
  refine ⟨?_, ?_, ?_, ?_⟩
  · exact touch_gesture_at_most_one_navigation.1 sampleCtx
      (onTouchStart sampleCtx (initState [some bottomPanel, some samplePanel]) 500)
      [(400, 1), (300, 2)]
  · exact touch_gesture_at_most_one_navigation.2.1 sampleCtx
      { initState [some bottomPanel, some samplePanel] with touchTriggered := true }
      300 200 (by decide)
  · exact touch_gesture_at_most_one_navigation.2.2.1 sampleCtx
      (initState [some bottomPanel, some samplePanel]) (-10) 0 (by decide)
  · exact touch_gesture_at_most_one_navigation.2.2.2
      { initState [some bottomPanel, some samplePanel] with touchTriggered := true }

/-!
### Messaging dispatch shim (`src/services/messaging/index.js`)

A payload object is modelled as an association list from keys to `JVal`s;
JS objects have unique keys, for which `delete` coincides with filtering
the key out.  A non-string value is modelled by its truthiness alone,
which is all the shim ever inspects.
-/

/-- A JS payload value: a string, or a non-string value carrying only its
truthiness. -/
inductive JVal where
  | str (s : String)
  | other (truthy : Bool)
deriving Repr, DecidableEq

/-- JS truthiness of a payload value (`""` is falsy). -/
def jsTruthy : JVal → Bool
  | .str s => s ≠ ""
  | .other b => b

/-- The common JS `String.prototype.trim` whitespace code points: space,
tab, LF, CR, vertical tab, form feed, NBSP, BOM. -/
def isJsWs (c : Char) : Bool :=
  c = ' ' || c = '\t' || c = '\n' || c = '\r' ||
    c.val = 11 || c.val = 12 || c.val = 160 || c.val = 0xFEFF

/-- Remove leading JS whitespace. -/
def trimLeftChars (l : List Char) : List Char :=
  l.dropWhile isJsWs

/-- Remove trailing JS whitespace. -/
def trimRightChars (l : List Char) : List Char :=
  (l.reverse.dropWhile isJsWs).reverse

/-- `String.prototype.trim`: strip leading and trailing JS whitespace. -/
def jsTrim (s : String) : String :=
  ⟨trimRightChars (trimLeftChars s.data)⟩

theorem dropWhile_dropWhile (p : α → Bool) (l : List α) :
    (l.dropWhile p).dropWhile p = l.dropWhile p := by
  induction l with
  | nil => rfl
  | cons a as ih =>
      by_cases h : p a
      · simp [List.dropWhile_cons, h, ih]
      · simp [List.dropWhile_cons, h]

theorem dropWhile_append_last (p : α → Bool) (c : α) (h : p c = false)
    (w : List α) : (w ++ [c]).dropWhile p = w.dropWhile p ++ [c] := by
  induction w with
  | nil => simp [List.dropWhile_cons, h]
  | cons a as ih =>
      by_cases ha : p a <;> simp [List.dropWhile_cons, ha, ih]

theorem trimRightChars_idem (l : List Char) :
    trimRightChars (trimRightChars l) = trimRightChars l := by
  unfold trimRightChars
  rw [List.reverse_reverse, dropWhile_dropWhile]

theorem trimRightChars_cons (c : Char) (rest : List Char)
    (h : isJsWs c = false) :
    trimRightChars (c :: rest) = c :: trimRightChars rest := by
  unfold trimRightChars
  rw [List.reverse_cons, dropWhile_append_last _ _ h]
  simp

theorem trimLeftChars_eq_nil_or_head (l : List Char) :
    trimLeftChars l = [] ∨
    ∃ c rest, trimLeftChars l = c :: rest ∧ isJsWs c = false := by
  unfold trimLeftChars
  induction l with
  | nil => exact Or.inl rfl
  | cons a as ih =>
      by_cases h : isJsWs a
      · rw [List.dropWhile_cons, if_pos h]
        exact ih
      · rw [List.dropWhile_cons, if_neg h]
        exact Or.inr ⟨a, as, rfl, by simpa using h⟩

theorem jsTrim_idem (s : String) : jsTrim (jsTrim s) = jsTrim s := by
  unfold jsTrim
  rcases trimLeftChars_eq_nil_or_head s.data with h | ⟨c, rest, h, hc⟩
  · rw [h]; rfl
  · rw [h, trimRightChars_cons c rest hc]
    have hhead : trimLeftChars
        ((⟨c :: trimRightChars rest⟩ : String).data) = c :: trimRightChars rest := by
      show trimLeftChars (c :: trimRightChars rest) = c :: trimRightChars rest
      unfold trimLeftChars
      rw [List.dropWhile_cons, if_neg (by simp [hc])]
    rw [hhead, trimRightChars_cons c _ hc, trimRightChars_idem]

/-- `delete rest[k]` on a unique-keyed JS object. -/
def deleteKey (k : String) (o : List (String × JVal)) : List (String × JVal) :=
  o.filter (fun e => e.1 ≠ k)

/-- `typeof v === "string" ? v.trim() : v`. -/
def trimVal : JVal → JVal
  | .str s => .str (jsTrim s)
  | v => v

/-- `normalizePayload(payload)`: drop the spam fields `company`,
`honeypot`, `website`, then trim every string-valued field. -/
def normalizePayload (payload : List (String × JVal)) : List (String × JVal) :=
  let rest := deleteKey "website" (deleteKey "honeypot" (deleteKey "company" payload))
  rest.map (fun e => (e.1, trimVal e.2))

/-- The environment `sendMessage` reads: Vite env vars, `window.location`
fields, `navigator.userAgent` and the current ISO timestamp. -/
structure MsgEnv where
  contactProvider : Option String
  siteNameVar : Option String
  origin : String
  locPath : String
  locHash : String
  userAgent : String
  timestamp : String
deriving Repr, DecidableEq

/-- JS `a || b` on an optional env string (`""` and absence are falsy). -/
def jsOrStr (v : Option String) (dflt : String) : String :=
  match v with
  | some s => if s = "" then dflt else s
  | none => dflt

/-- `getProvider()`: `(VITE_CONTACT_PROVIDER || "mock").toLowerCase()`. -/
def getProvider (env : MsgEnv) : String :=
  (jsOrStr env.contactProvider "mock").toLower

/-- `getSiteMeta()`: `{siteName: VITE_SITE_NAME || "Portfolio",
siteUrl: window.location.origin}`. -/
def getSiteMeta (env : MsgEnv) : String × String :=
  (jsOrStr env.siteNameVar "Portfolio", env.origin)

/-- Object property read `o[k]`. -/
def lookupKey (k : String) (o : List (String × JVal)) : Option JVal :=
  (o.find? (fun e => e.1 = k)).map (fun e => e.2)

/-- JS `a || b` on an optional payload value. -/
def jsOrVal (v : Option JVal) (dflt : JVal) : JVal :=
  match v with
  | some x => if jsTruthy x then x else dflt
  | none => dflt

/-- Object literal update `{...o, k: v}`: override in place when the key
exists, append otherwise. -/
def setKey (k : String) (v : JVal) (o : List (String × JVal)) :
    List (String × JVal) :=
  if o.any (fun e => e.1 = k) then
    o.map (fun e => if e.1 = k then (k, v) else e)
  else o ++ [(k, v)]

/-- The three message providers the shim can dispatch to. -/
inductive Provider where
  | mock
  | mailto
  | emailjs
deriving Repr, DecidableEq

/-- `sendMessage(payload)`: normalize, enrich with
`pagePath`/`userAgent`/`siteName`/`siteUrl`/`timestamp`, and hand the
enriched object to the selected provider (default `mock`).  The
`console.log` diagnostics have no effect on the dispatched object. -/
def sendMessage (env : MsgEnv) (payload : List (String × JVal)) :
    Provider × List (String × JVal) :=
  let provider := getProvider env
  let meta := getSiteMeta env
  let clean := normalizePayload payload
  let enriched :=
    setKey "timestamp" (.str env.timestamp)
      (setKey "siteUrl" (.str meta.2)
        (setKey "siteName" (.str meta.1)
          (setKey "userAgent"
            (jsOrVal (lookupKey "userAgent" clean) (.str env.userAgent))
            (setKey "pagePath"
              (jsOrVal (lookupKey "pagePath" clean)
                (.str (env.locPath ++ env.locHash))) clean))))
  let p :=
    if provider = "mailto" then Provider.mailto
    else if provider = "emailjs" then Provider.emailjs
    else Provider.mock
  (p, enriched)

/-- The five keys `sendMessage` enriches from the environment. -/
def metaKeys : List String :=
  ["pagePath", "userAgent", "siteName", "siteUrl", "timestamp"]

theorem mem_normalizePayload {kv : String × JVal}
    {payload : List (String × JVal)} (h : kv ∈ normalizePayload payload) :
    kv.1 ≠ "company" ∧ kv.1 ≠ "honeypot" ∧ kv.1 ≠ "website" ∧
    ∀ s, kv.2 = JVal.str s → jsTrim s = s := by
  unfold normalizePayload deleteKey at h
  simp only [] at h
  rw [List.mem_map] at h
  obtain ⟨e, he, heq⟩ := h
  rw [List.mem_filter] at he
  obtain ⟨he, hw⟩ := he
  rw [List.mem_filter] at he
  obtain ⟨he, hh⟩ := he
  rw [List.mem_filter] at he
  obtain ⟨_, hc⟩ := he
  subst heq
  refine ⟨of_decide_eq_true hc, of_decide_eq_true hh, of_decide_eq_true hw, ?_⟩
  intro s hs
  cases hv : e.2 with
  | str s0 =>
      rw [hv] at hs
      unfold trimVal at hs
      cases hs
      exact jsTrim_idem s0
  | other b =>
      rw [hv] at hs
      exact JVal.noConfusion hs

theorem mem_setKey {kv : String × JVal} {k : String} {v : JVal}
    {o : List (String × JVal)} (h : kv ∈ setKey k v o) :
    kv = (k, v) ∨ kv ∈ o := by
  unfold setKey at h
  split at h
  · rw [List.mem_map] at h
    obtain ⟨e, he, heq⟩ := h
    by_cases hk : e.1 = k
    · rw [if_pos hk] at heq
      exact Or.inl heq.symm
    · rw [if_neg hk] at heq
      exact Or.inr (heq ▸ he)
  · rw [List.mem_append] at h
    rcases h with h | h
    · exact Or.inr h
    · exact Or.inl (by simpa using h)

theorem metaKey_entry_ok {kv : String × JVal} {k : String} {v : JVal}
    (h : kv = (k, v)) (hk : k ∈ metaKeys) (hc : k ≠ "company")
    (hh : k ≠ "honeypot") (hw : k ≠ "website") :
    kv.1 ≠ "company" ∧ kv.1 ≠ "honeypot" ∧ kv.1 ≠ "website" ∧
    (kv.1 ∉ metaKeys → ∀ s, kv.2 = JVal.str s → jsTrim s = s) := by
  subst h
  exact ⟨hc, hh, hw, fun hmem => absurd hk hmem⟩

/-- C10: for every payload and environment, the object `sendMessage`
hands to the selected provider (mock, mailto or emailjs alike) contains
none of the spam keys `company`, `honeypot`, `website`, and every field
other than the five environment-enriched keys
(`pagePath`/`userAgent`/`siteName`/`siteUrl`/`timestamp`) that holds a
string holds it with leading and trailing whitespace trimmed. -/
theorem sendMessage_strips_spam_and_trims (env : MsgEnv)
    (payload : List (String × JVal)) :
    ∀ kv ∈ (sendMessage env payload).2,
      kv.1 ≠ "company" ∧ kv.1 ≠ "honeypot" ∧ kv.1 ≠ "website" ∧
      (kv.1 ∉ metaKeys → ∀ s, kv.2 = JVal.str s → jsTrim s = s) := by
  intro kv hkv
  unfold sendMessage at hkv
  simp only [] at hkv
  rcases mem_setKey hkv with h | hkv
  · exact metaKey_entry_ok h (by decide) (by decide) (by decide) (by decide)
  rcases mem_setKey hkv with h | hkv
  · exact metaKey_entry_ok h (by decide) (by decide) (by decide) (by decide)
  rcases mem_setKey hkv with h | hkv
  · exact metaKey_entry_ok h (by decide) (by decide) (by decide) (by decide)
  rcases mem_setKey hkv with h | hkv
  · exact metaKey_entry_ok h (by decide) (by decide) (by decide) (by decide)
  rcases mem_setKey hkv with h | hkv
  · exact metaKey_entry_ok h (by decide) (by decide) (by decide) (by decide)
  obtain ⟨h1, h2, h3, h4⟩ := mem_normalizePayload hkv
  exact ⟨h1, h2, h3, fun _ => h4⟩

/-- A concrete environment for the C10 witness. -/
def sampleEnv : MsgEnv :=
  { contactProvider := none, siteNameVar := none,
    origin := "https://example.test", locPath := "/", locHash := "#home",
    userAgent := "agent", timestamp := "2026-10-12T00:00:00.000Z" }

/-- Witness for C10: a payload containing the spam key `company` and an
untrimmed `name`; the entry the provider receives for `name` is the
trimmed string, and it satisfies the sanitization contract. -/
theorem sendMessage_strips_spam_and_trims_witness :
    (("name", JVal.str "Bob") ∈
      (sendMessage sampleEnv
        [("company", JVal.str "spam"), ("name", JVal.str "  Bob  "),
         ("honeypot", JVal.str "h"), ("n", JVal.other true)]).2) ∧
    (("name", JVal.str "Bob").1 ≠ "company" ∧
     ("name", JVal.str "Bob").1 ≠ "honeypot" ∧
     ("name", JVal.str "Bob").1 ≠ "website" ∧
     (("name", JVal.str "Bob").1 ∉ metaKeys →
       ∀ s, ("name", JVal.str "Bob").2 = JVal.str s → jsTrim s = s)) := by
  refine ⟨by decide, ?_⟩
  exact sendMessage_strips_spam_and_trims sampleEnv
    [("company", JVal.str "spam"), ("name", JVal.str "  Bob  "),
     ("honeypot", JVal.str "h"), ("n", JVal.other true)]
    ("name", JVal.str "Bob") (by decide)
